import Mathlib

/-!
Verification of the admission-control / background-processing core of the
image-host-api repository: the token-bucket rate limiter
(src/services/rate_limiter.rs), the quota accounting engine
(src/services/quota_manager.rs), the admission middleware
(src/middleware/rate_limit.rs, src/middleware/quota.rs) and the
image-processing worker pool (src/services/image_processor.rs),
shallowly embedded in Lean.

Conventions: Redis and wall-clock time are made explicit.  Unix timestamps
are `Nat` seconds.  Lua numbers stored in the bucket hash are modelled as
`Int` (they can go negative).  `u64`/`u32` counters are `Nat`, with an
explicit `% 2 ^ 64` where the Rust arithmetic can wrap.  Human-readable
violation message strings are presentational and omitted from the model.
-/

namespace ImageHost

/-! ## Token bucket (Lua script inside RateLimiter::check_rate_limit) -/

/-- State of one rate-limit bucket hash: fields `tokens` and `last_refill`.
Lua numbers; `tokens` can become negative, hence `Int`. -/
structure Bucket where
  tokens : Int
  last_refill : Int
deriving Repr, DecidableEq

/-- The pair `{allowed, tokens}` returned by the Lua script (the script also
returns `capacity`, which the caller already knows). -/
structure ScriptResult where
  allowed : Bool
  tokens : Int
deriving Repr, DecidableEq

/-- The atomic Lua script run by `RateLimiter::check_rate_limit`
(src/services/rate_limiter.rs lines 33-60): read the bucket (a missing
bucket defaults to `tokens = capacity`, `last_refill = now`), add
`math.floor(elapsed * refill_rate / 60)` tokens capped at `capacity`,
consume `requested` tokens if available, and store the new state with
`last_refill = now`.  Lua `math.floor` of a quotient is floor division,
i.e. `Int.fdiv`. -/
def rate_limit_script (capacity refill_rate now requested : Nat)
    (bucket : Option Bucket) : ScriptResult × Bucket :=
  let tokens0 : Int := match bucket with
    | some b => b.tokens
    | none => capacity
  let last_refill : Int := match bucket with
    | some b => b.last_refill
    | none => now
  let time_elapsed : Int := (now : Int) - last_refill
  let tokens_to_add : Int := Int.fdiv (time_elapsed * refill_rate) 60
  let tokens1 : Int := min (capacity : Int) (tokens0 + tokens_to_add)
  if (requested : Int) ≤ tokens1 then
    (⟨true, tokens1 - requested⟩, ⟨tokens1 - requested, now⟩)
  else
    (⟨false, tokens1⟩, ⟨tokens1, now⟩)

/-- The `RateLimitResult` struct as returned by `RateLimiter::check_rate_limit`. -/
structure RateLimitResult where
  allowed : Bool
  remaining_tokens : Nat
  capacity : Nat
  reset_time : Nat
deriving Repr, DecidableEq

/-- The Rust side reads the script result into `Vec<i32>` and casts
`result[1] as u32`: an `i32`-to-`u32` cast is the value modulo `2 ^ 32`. -/
def i32_as_u32 (x : Int) : Nat := (x % (2 ^ 32 : Nat)).toNat

/-- Model of `RateLimiter::check_rate_limit` (src/services/rate_limiter.rs lines
19-79): runs the atomic script with `requested = 1` and packages the
result; `reset_time = now + 60`.  When Redis is unreachable the call
returns an error (`AppError::Redis`), modelled as `Except.error`. -/
def check_rate_limit (redis_up : Bool) (bucket : Option Bucket)
    (capacity refill_rate now : Nat) :
    Except Unit (RateLimitResult × Bucket) :=
  if redis_up then
    let r := rate_limit_script capacity refill_rate now 1 bucket
    .ok (⟨r.1.allowed, i32_as_u32 r.1.tokens, capacity, now + 60⟩, r.2)
  else
    .error ()

/-- Bucket store for one API key: one bucket per window name
("minute" / "hour" / "day"). -/
def BStore := String → Option Bucket

def emptyBStore : BStore := fun _ => none

def setBucket (s : BStore) (k : String) (b : Bucket) : BStore :=
  fun q => if q = k then some b else s q

/-! ## Admission middleware (src/middleware/rate_limit.rs) -/

/-- The `rate_limits` block of `ApiKeyLimits` (src/models/api_key.rs). -/
structure RateLimits where
  requests_per_minute : Nat
  requests_per_hour : Nat
  requests_per_day : Nat
deriving Repr, DecidableEq

/-- Structure `ApiKeyLimits` (src/models/api_key.rs); `allowed_origins` plays no role
in the verified components and is omitted. -/
structure ApiKeyLimits where
  daily_limit : Nat
  monthly_limit : Nat
  max_images : Nat
  max_image_size_bytes : Nat
  rate_limits : RateLimits
deriving Repr, DecidableEq

/-- The `rate_checks` array of `rate_limit_middleware`
(src/middleware/rate_limit.rs lines 36-40): window name, capacity, and
refill rate per minute (integer division for hour and day). -/
def rate_checks (rl : RateLimits) : List (String × Nat × Nat) :=
  [("minute", rl.requests_per_minute, rl.requests_per_minute),
   ("hour", rl.requests_per_hour, rl.requests_per_hour / 60),
   ("day", rl.requests_per_day, rl.requests_per_day / (24 * 60))]

/-- Outcome of the middleware: a 429 denial carrying the denying window's
header values, or the request proceeding, with the rate-limit headers
`(limit, remaining, reset)` attached when a successful check produced
them (`none` when every check errored and the request fell through). -/
inductive MWOutcome where
  | denied (limit_type : String) (limit remaining reset : Nat)
  | proceeded (headers : Option (Nat × Nat × Nat))
deriving Repr, DecidableEq

/-- The `for (limit_type, capacity, refill_rate) in rate_checks` loop of
`rate_limit_middleware` (src/middleware/rate_limit.rs lines 42-85).
Mirrors the source control flow exactly: on `Ok` with `allowed = false`
it returns the denial; on `Ok` with `allowed = true` it runs the inner
handler and returns the response with headers from THIS window (a
`return` inside the loop body); on `Err` it logs a warning and continues
with the next window without touching the store.  Also returns the final
bucket store and the list of windows on which the atomic script actually
ran. -/
def rate_limit_loop (redis_up : Bool) (now : Nat) :
    List (String × Nat × Nat) → BStore → MWOutcome × BStore × List String
  | [], s => (.proceeded none, s, [])
  | (limit_type, capacity, refill_rate) :: rest, s =>
    match check_rate_limit redis_up (s limit_type) capacity refill_rate now with
    | .ok (result, b) =>
      let s1 := setBucket s limit_type b
      if result.allowed then
        (.proceeded (some (capacity, result.remaining_tokens, result.reset_time)), s1,
          [limit_type])
      else
        (.denied limit_type capacity result.remaining_tokens result.reset_time, s1,
          [limit_type])
    | .error _ => rate_limit_loop redis_up now rest s

/-- One request passing through `rate_limit_middleware`. -/
def rate_limit_middleware (redis_up : Bool) (now : Nat) (rl : RateLimits)
    (s : BStore) : MWOutcome × BStore × List String :=
  rate_limit_loop redis_up now (rate_checks rl) s

/-! ## Usage counters (RateLimiter::increment_usage_counter / get_usage_counter) -/

/-- A usage-counter key: `usage:{api_key_id}:{counter_type}`, modelled as
the pair (api key id, counter type). -/
abbrev CKey := String × String

/-- One Redis string counter together with its expiry deadline (the
absolute time at which its TTL elapses). -/
structure CounterEntry where
  value : Nat
  expires_at : Nat
deriving Repr, DecidableEq

/-- The usage-counter portion of the Redis keyspace. -/
def CStore := CKey → Option CounterEntry

def emptyCStore : CStore := fun _ => none

/-- Value a read (or an `INCR`) observes at `now`: an entry whose TTL has
elapsed is gone, and a missing key reads as 0 (`value.unwrap_or(0)` on
the Rust side, and `INCRBY` starts from 0). -/
def live_value (now : Nat) (e : Option CounterEntry) : Nat :=
  match e with
  | some c => if now < c.expires_at then c.value else 0
  | none => 0

/-- The `match counter_type` in `RateLimiter::increment_usage_counter`
(src/services/rate_limiter.rs lines 102-107): "daily" gets 24 hours,
"monthly" 30 days, every other counter type the 1-hour default. -/
def counter_expiration (counter_type : String) : Nat :=
  if counter_type = "daily" then 86400
  else if counter_type = "monthly" then 2592000
  else 3600

/-- Model of `RateLimiter::increment_usage_counter` (src/services/rate_limiter.rs
lines 90-113): `INCRBY key amount` followed by `EXPIRE key expiration`
on every call.  Returns the incremented value. -/
def increment_usage_counter (now : Nat) (api_key_id counter_type : String)
    (amount : Nat) (s : CStore) : Nat × CStore :=
  let key : CKey := (api_key_id, counter_type)
  let new_value := live_value now (s key) + amount
  (new_value, fun q =>
    if q = key then some ⟨new_value, now + counter_expiration counter_type⟩
    else s q)

/-- Model of `RateLimiter::get_usage_counter` (src/services/rate_limiter.rs lines
115-127): a plain `GET`, missing key read as 0. -/
def get_usage_counter (now : Nat) (api_key_id counter_type : String)
    (s : CStore) : Nat :=
  live_value now (s (api_key_id, counter_type))

/-- Deletion of a usage-counter key: what TTL expiry does at rollover, and
what the administrative resets in `handlers/admin.rs::reset_quota` do
(they only `DEL` usage keys). -/
def del_key (q : CKey) (s : CStore) : CStore :=
  fun p => if p = q then none else s p

/-- Model of `QuotaManager::record_upload` (src/services/quota_manager.rs lines
136-169): increments `daily_uploads` and `monthly_uploads` by 1 and
`daily_bytes` and `monthly_bytes` by the file size, in that order.  (The
trailing SQL `UsageQueries::update_usage` touches the relational store,
not the counter store.) -/
def record_upload (now : Nat) (api_key_id : String) (file_size : Nat)
    (s : CStore) : CStore :=
  let s1 := (increment_usage_counter now api_key_id "daily_uploads" 1 s).2
  let s2 := (increment_usage_counter now api_key_id "monthly_uploads" 1 s1).2
  let s3 := (increment_usage_counter now api_key_id "daily_bytes" file_size s2).2
  (increment_usage_counter now api_key_id "monthly_bytes" file_size s3).2

/-- Model of `QuotaManager::record_download` (src/services/quota_manager.rs lines
171-196): increments the two bandwidth counters. -/
def record_download (now : Nat) (api_key_id : String) (bytes_served : Nat)
    (s : CStore) : CStore :=
  let s1 := (increment_usage_counter now api_key_id "daily_bandwidth" bytes_served s).2
  (increment_usage_counter now api_key_id "monthly_bandwidth" bytes_served s1).2

/-! ## Quota checks (QuotaManager::check_upload_quota, middleware/quota.rs) -/

inductive QuotaViolationType where
  | fileSizeExceeded
  | dailyUploadsExceeded
  | monthlyUploadsExceeded
  | imageCountExceeded
  | storageExceeded
deriving Repr, DecidableEq

/-- Structure `QuotaViolation` (src/services/quota_manager.rs lines 275-281); the
human-readable `message` string is presentational and omitted. -/
structure QuotaViolation where
  violation_type : QuotaViolationType
  current_value : Nat
  limit_value : Nat
deriving Repr, DecidableEq

structure QuotaUsage where
  daily_uploads : Nat
  monthly_uploads : Nat
  image_count : Nat
  storage_used : Nat
deriving Repr, DecidableEq

structure QuotaCheckResult where
  allowed : Bool
  violations : List QuotaViolation
  current_usage : QuotaUsage
deriving Repr, DecidableEq

/-- Arithmetic on `u64` wraps modulo `2 ^ 64`. -/
def u64 (n : Nat) : Nat := n % (2 ^ 64 : Nat)

/-- Model of `QuotaManager::check_upload_quota` (src/services/quota_manager.rs
lines 21-134).  Each of the four external reads is passed in as an
`Option Nat`: `some v` when the underlying call succeeded with `v`,
`none` when it failed — the source applies `.unwrap_or(0)` to every one
of them.  Violations are pushed in source order and
`allowed = violations.is_empty()`. -/
def check_upload_quota (file_size : Nat) (limits : ApiKeyLimits)
    (daily_read monthly_read image_count_read storage_read : Option Nat) :
    QuotaCheckResult :=
  let v0 : List QuotaViolation := []
  let v1 := if limits.max_image_size_bytes < file_size then
      v0 ++ [⟨.fileSizeExceeded, file_size, limits.max_image_size_bytes⟩]
    else v0
  let daily_uploads := daily_read.getD 0
  let v2 := if limits.daily_limit ≤ daily_uploads then
      v1 ++ [⟨.dailyUploadsExceeded, daily_uploads, limits.daily_limit⟩]
    else v1
  let monthly_uploads := monthly_read.getD 0
  let v3 := if limits.monthly_limit ≤ monthly_uploads then
      v2 ++ [⟨.monthlyUploadsExceeded, monthly_uploads, limits.monthly_limit⟩]
    else v2
  let image_count := image_count_read.getD 0
  let v4 := if limits.max_images ≤ image_count then
      v3 ++ [⟨.imageCountExceeded, image_count, limits.max_images⟩]
    else v3
  let storage_used := storage_read.getD 0
  let max_storage := u64 (limits.max_image_size_bytes * limits.max_images)
  let v5 := if max_storage < u64 (storage_used + file_size) then
      v4 ++ [⟨.storageExceeded, u64 (storage_used + file_size), max_storage⟩]
    else v4
  { allowed := v5.isEmpty
    violations := v5
    current_usage := ⟨daily_uploads, monthly_uploads, image_count, storage_used⟩ }

/-- Variant of `check_upload_quota` with the two fast-counter reads performed against
the counter store (`GET usage:{key}:daily_uploads` and
`GET usage:{key}:monthly_uploads`); the two relational reads (image
count, stored bytes) stay parameters.  A `GET` does not modify the
store, so the store is returned untouched. -/
def check_upload_quota_st (now : Nat) (api_key_id : String) (file_size : Nat)
    (limits : ApiKeyLimits) (image_count_read storage_read : Option Nat)
    (s : CStore) : QuotaCheckResult × CStore :=
  let daily := get_usage_counter now api_key_id "daily_uploads" s
  let monthly := get_usage_counter now api_key_id "monthly_uploads" s
  (check_upload_quota file_size limits (some daily) (some monthly)
      image_count_read storage_read, s)

/-- Which of the first two checks of `quota_middleware` denied. -/
inductive QuotaDeny where
  | daily
  | monthly
deriving Repr, DecidableEq

/-- The daily and monthly checks of `quota_middleware`
(src/middleware/quota.rs lines 36-70): they read the counter types
"daily" and "monthly" and deny with 429 when the value reaches the
limit. -/
def quota_mw_daily_monthly (now : Nat) (api_key_id : String)
    (limits : ApiKeyLimits) (s : CStore) : Option QuotaDeny :=
  let daily_usage := get_usage_counter now api_key_id "daily" s
  if limits.daily_limit ≤ daily_usage then some .daily
  else
    let monthly_usage := get_usage_counter now api_key_id "monthly" s
    if limits.monthly_limit ≤ monthly_usage then some .monthly
    else none

/-! ## Worker pool (ImageProcessor, src/services/image_processor.rs) -/

inductive JobStatus where
  | queued
  | processing
  | completed
  | failed
  | retrying
deriving Repr, DecidableEq

/-- The fields of `ProcessingJob` that `worker_loop` mutates; the
timestamps `started_at` / `completed_at` are abstracted to flags
recording whether they were set, and `error_message` to whether one is
present. -/
structure JobRec where
  status : JobStatus
  retry_count : Nat
  has_error : Bool
  started : Bool
  completed : Bool
deriving Repr, DecidableEq

/-- Result of the worker-loop body handling one received job: the job's
final in-memory record, the jobs it sent back into the queue, and the
seconds it slept for backoff. -/
structure WorkerStep where
  job : JobRec
  requeued : List JobRec
  slept_secs : Nat
deriving Repr, DecidableEq

/-- The body of `ImageProcessor::worker_loop` for one received job
(src/services/image_processor.rs lines 134-165), with the outcome of
`process_job` abstracted as `attempt_ok`.  Faithful to the source: on
failure the status becomes `Failed`, `retry_count` is incremented, and
when `retry_count < 3` the status becomes `Retrying` and the worker
sleeps `retry_count * 10` seconds and logs — but nothing is ever sent
back into the queue (`requeued` is always empty, exactly as in the
source, whose retry branch only logs after the sleep). -/
def worker_handle_job (attempt_ok : Bool) (j : JobRec) : WorkerStep :=
  let j1 : JobRec := { j with status := .processing, started := true }
  if attempt_ok then
    { job := { j1 with status := .completed, completed := true }
      requeued := []
      slept_secs := 0 }
  else
    let j2 : JobRec :=
      { j1 with status := .failed, has_error := true, retry_count := j1.retry_count + 1 }
    if j2.retry_count < 3 then
      { job := { j2 with status := .retrying }
        requeued := []
        slept_secs := j2.retry_count * 10 }
    else
      { job := j2, requeued := [], slept_secs := 0 }

/-- The worker loop once the job sender has been dropped: on a closed
tokio mpsc channel, `recv` yields the messages still buffered, in FIFO
order, and then returns `None`, ending the loop.  `attempts i` is the
outcome of `process_job` for the i-th buffered job. -/
def worker_loop_closed (attempts : Nat → Bool) : Nat → List JobRec → List JobRec
  | _, [] => []
  | i, j :: rest =>
    (worker_handle_job (attempts i) j).job :: worker_loop_closed attempts (i + 1) rest

/-- Model of `ImageProcessor::shutdown` (src/services/image_processor.rs lines
430-441): drops the job sender (closing the channel) and awaits every
worker handle; it therefore returns only after the workers have drained
and handled every job still in the queue. -/
def shutdown_drain (attempts : Nat → Bool) (pending : List JobRec) : List JobRec :=
  worker_loop_closed attempts 0 pending

/-! ## Reachable states -/

/-- Bucket states reachable through the atomic script for one
(subject, window) key, starting from an absent bucket, under calls whose
timestamps never run backwards past the bucket's stored `last_refill`
(each call stores `last_refill := now`, so this says call times are
non-decreasing). -/
inductive BucketReach (capacity refill_rate : Nat) : Option Bucket → Prop where
  | init : BucketReach capacity refill_rate none
  | step {b : Option Bucket} (now requested : Nat)
      (hb : BucketReach capacity refill_rate b)
      (ht : ∀ x, b = some x → x.last_refill ≤ (now : Int)) :
      BucketReach capacity refill_rate
        (some (rate_limit_script capacity refill_rate now requested b).2)

/-- Counter-store states reachable through the core's own operations:
the empty store, `record_upload`, `record_download`, and deletion of a
key — which covers both TTL expiry at period rollover and the
administrative resets of `handlers/admin.rs::reset_quota` (those only
`DEL` usage keys). -/
inductive CoreReach : CStore → Prop where
  | init : CoreReach emptyCStore
  | upload (now : Nat) (api_key_id : String) (file_size : Nat) {s : CStore}
      (h : CoreReach s) : CoreReach (record_upload now api_key_id file_size s)
  | download (now : Nat) (api_key_id : String) (bytes_served : Nat) {s : CStore}
      (h : CoreReach s) : CoreReach (record_download now api_key_id bytes_served s)
  | expire_or_reset (q : CKey) {s : CStore} (h : CoreReach s) :
      CoreReach (del_key q s)

/-! ## Helper lemmas -/

/-- Floor division of a cast product agrees with `Nat` division. -/
lemma fdiv_natCast (a r : Nat) :
    Int.fdiv ((a : Int) * (r : Int)) 60 = ((a * r / 60 : Nat) : Int) := by
  rw [Int.fdiv_eq_ediv _ (by norm_num)]
  push_cast
  rfl

/-- On a stored bucket with a non-negative token count and a
`last_refill` not in the future, the Lua script computes exactly the
`Nat`-arithmetic token-bucket step
`n = min capacity (tokens + elapsed * refill_rate / 60)`, consuming
`requested` tokens iff `requested ≤ n`. -/
lemma script_spec (capacity refill_rate requested now t lr : Nat) (hlr : lr ≤ now) :
    rate_limit_script capacity refill_rate now requested (some ⟨(t : Int), (lr : Int)⟩) =
      (if requested ≤ min capacity (t + (now - lr) * refill_rate / 60) then
        (⟨true, ((min capacity (t + (now - lr) * refill_rate / 60) - requested : Nat) : Int)⟩,
         ⟨((min capacity (t + (now - lr) * refill_rate / 60) - requested : Nat) : Int),
           (now : Int)⟩)
      else
        (⟨false, ((min capacity (t + (now - lr) * refill_rate / 60) : Nat) : Int)⟩,
         ⟨((min capacity (t + (now - lr) * refill_rate / 60) : Nat) : Int),
           (now : Int)⟩)) := by
  have hel : ((now : Int) - (lr : Int)) = ((now - lr : Nat) : Int) := by omega
  simp only [rate_limit_script, hel, fdiv_natCast]
  have hmin : min (capacity : Int) ((t : Int) + (((now - lr) * refill_rate / 60 : Nat) : Int))
      = ((min capacity (t + (now - lr) * refill_rate / 60) : Nat) : Int) := by
    push_cast [Nat.cast_min]
    rfl
  rw [hmin]
  set n := min capacity (t + (now - lr) * refill_rate / 60) with hn
  split_ifs with h1 h2 h2 <;>
    simp only [Prod.mk.injEq, ScriptResult.mk.injEq, Bucket.mk.injEq, true_and,
      and_true] <;>
    (constructor <;> omega)

/-- One script step preserves `0 ≤ tokens ≤ capacity` and writes
`last_refill = now`, provided the incoming bucket (if present) is in
range and its `last_refill` is not in the future. -/
lemma script_bounds (capacity refill_rate requested now : Nat) (b : Option Bucket)
    (hb : ∀ x, b = some x →
      0 ≤ x.tokens ∧ x.tokens ≤ capacity ∧ x.last_refill ≤ (now : Int)) :
    0 ≤ (rate_limit_script capacity refill_rate now requested b).2.tokens ∧
      (rate_limit_script capacity refill_rate now requested b).2.tokens ≤ capacity ∧
      (rate_limit_script capacity refill_rate now requested b).2.last_refill = (now : Int) := by
  cases b with
  | none =>
    simp only [rate_limit_script, Int.sub_self, Int.zero_mul, Int.zero_fdiv,
      Int.add_zero, min_self]
    split_ifs <;> dsimp only <;> refine ⟨?_, ?_, rfl⟩ <;> omega
  | some x =>
    obtain ⟨h0, hcap, hlr⟩ := hb x rfl
    have hadd : 0 ≤ Int.fdiv (((now : Int) - x.last_refill) * (refill_rate : Int)) 60 :=
      Int.fdiv_nonneg (Int.mul_nonneg (by omega) (by omega)) (by norm_num)
    simp only [rate_limit_script]
    set A := Int.fdiv (((now : Int) - x.last_refill) * (refill_rate : Int)) 60 with hA
    have hm1 : min (capacity : Int) (x.tokens + A) ≤ (capacity : Int) := min_le_left _ _
    have hm2 : 0 ≤ min (capacity : Int) (x.tokens + A) := le_min (by omega) (by omega)
    split_ifs with h <;> dsimp only <;> refine ⟨?_, ?_, rfl⟩ <;> omega

/-- Every bucket reachable under non-decreasing call times is in range. -/
lemma bucketReach_bounds {capacity refill_rate : Nat} {b : Option Bucket}
    (h : BucketReach capacity refill_rate b) :
    ∀ x, b = some x → 0 ≤ x.tokens ∧ x.tokens ≤ capacity := by
  induction h with
  | init => intro x hx; exact absurd hx (by simp)
  | @step b0 now requested hb ht ih =>
    intro x hx
    cases hx
    have := script_bounds capacity refill_rate requested now b0 (fun y hy => by
      obtain ⟨h1, h2⟩ := ih y hy
      exact ⟨h1, h2, ht y hy⟩)
    exact ⟨this.1, this.2.1⟩

/-- An increment leaves every key of a different counter type unchanged. -/
lemma increment_other (now : Nat) (k kind : String) (amount : Nat) (s : CStore)
    (q : CKey) (hq : q.2 ≠ kind) :
    (increment_usage_counter now k kind amount s).2 q = s q := by
  simp only [increment_usage_counter]
  rw [if_neg]
  intro h
  apply hq
  rw [h]

/-- `record_upload` leaves every key outside its four counter types
unchanged. -/
lemma record_upload_other (now : Nat) (k : String) (file_size : Nat) (s : CStore)
    (q : CKey) (h1 : q.2 ≠ "daily_uploads") (h2 : q.2 ≠ "monthly_uploads")
    (h3 : q.2 ≠ "daily_bytes") (h4 : q.2 ≠ "monthly_bytes") :
    record_upload now k file_size s q = s q := by
  simp only [record_upload]
  rw [increment_other _ _ _ _ _ _ h4, increment_other _ _ _ _ _ _ h3,
    increment_other _ _ _ _ _ _ h2, increment_other _ _ _ _ _ _ h1]

/-- `record_download` leaves every key outside its two counter types
unchanged. -/
lemma record_download_other (now : Nat) (k : String) (bytes_served : Nat) (s : CStore)
    (q : CKey) (h1 : q.2 ≠ "daily_bandwidth") (h2 : q.2 ≠ "monthly_bandwidth") :
    record_download now k bytes_served s q = s q := by
  simp only [record_download]
  rw [increment_other _ _ _ _ _ _ h2, increment_other _ _ _ _ _ _ h1]

/-- In every reachable counter-store state the counter types "daily" and
"monthly" are absent: no core operation ever writes them. -/
lemma coreReach_daily_monthly {s : CStore} (h : CoreReach s) (k : String) :
    s (k, "daily") = none ∧ s (k, "monthly") = none := by
  induction h with
  | init => exact ⟨rfl, rfl⟩
  | upload now key fs h ih =>
    rw [record_upload_other _ _ _ _ _ (by simp) (by simp) (by simp) (by simp),
      record_upload_other _ _ _ _ _ (by simp) (by simp) (by simp) (by simp)]
    exact ih
  | download now key bs h ih =>
    rw [record_download_other _ _ _ _ _ (by simp) (by simp),
      record_download_other _ _ _ _ _ (by simp) (by simp)]
    exact ih
  | expire_or_reset q h ih =>
    constructor <;> simp only [del_key] <;> split_ifs <;> simp [ih.1, ih.2]

/-- Index-wise description of the closed-channel worker loop. -/
lemma worker_loop_closed_get (attempts : Nat → Bool) (k i : Nat) (l : List JobRec) :
    (worker_loop_closed attempts k l)[i]? =
      (l[i]?).map (fun j => (worker_handle_job (attempts (k + i)) j).job) := by
  induction l generalizing k i with
  | nil => simp [worker_loop_closed]
  | cons j rest ih =>
    cases i with
    | zero => simp [worker_loop_closed]
    | succ n =>
      have h : k + 1 + n = k + (n + 1) := by omega
      simp only [worker_loop_closed, List.getElem?_cons_succ, ih (k + 1) n, h]

/-! ## Claim theorems -/

/-- Claim C1 (code bug).  The claim says all three windows (minute, hour,
day) are checked via checkAndConsume and the response carries the most
restrictive window's remaining/reset values.  The code does not do this:
when Redis is up and the minute window allows, the loop body runs the
inner handler and returns from inside its first iteration, so only the
"minute" window's script ever runs, the hour and day buckets are never
touched, and the attached headers are the minute window's.  Evaluated
here at a fresh store with limits (5/minute, 120/hour, 2880/day) at
`now = 0`: the request proceeds with minute headers `(5, 4, 60)`, the
list of windows actually checked is exactly `["minute"]`, and the hour
and day buckets remain absent while the minute bucket holds 4 tokens. -/
theorem c1_rate_limit_middleware_minute_only :
    (rate_limit_middleware true 0 ⟨5, 120, 2880⟩ emptyBStore).1 =
      .proceeded (some (5, 4, 60)) ∧
    (rate_limit_middleware true 0 ⟨5, 120, 2880⟩ emptyBStore).2.2 = ["minute"] ∧
    (rate_limit_middleware true 0 ⟨5, 120, 2880⟩ emptyBStore).2.1 "hour" = none ∧
    (rate_limit_middleware true 0 ⟨5, 120, 2880⟩ emptyBStore).2.1 "day" = none ∧
    (rate_limit_middleware true 0 ⟨5, 120, 2880⟩ emptyBStore).2.1 "minute" =
      some ⟨4, 0⟩ := by
  refine ⟨?_, ?_, ?_, ?_, ?_⟩ <;> decide

/-- Claim C2 (code bug).  The claim says a job whose first two attempts
fail and whose third succeeds ends `Completed` with `retry_count = 2`,
after being re-enqueued with backoff on each sub-ceiling failure.  The
worker loop gives each received job exactly one `process_job` attempt:
on failure it marks the job `Failed`, increments `retry_count` to 1,
marks it `Retrying`, sleeps `retry_count * 10` seconds — and never sends
it back into the queue (the re-queue comment in the source is followed
only by a log line), so no second attempt ever happens: a fresh job ends
either `Completed` with `retry_count = 0` or `Retrying` with
`retry_count = 1`, and no handling of any job ever re-enqueues
anything. -/
theorem c2_worker_loop_single_attempt :
    worker_handle_job false ⟨.queued, 0, false, false, false⟩ =
      ⟨⟨.retrying, 1, true, true, false⟩, [], 10⟩ ∧
    worker_handle_job true ⟨.queued, 0, false, false, false⟩ =
      ⟨⟨.completed, 0, false, true, true⟩, [], 0⟩ ∧
    (∀ (attempt_ok : Bool) (j : JobRec),
      (worker_handle_job attempt_ok j).requeued = []) := by
  refine ⟨by decide, by decide, ?_⟩
  intro attempt_ok j
  cases attempt_ok <;> simp only [worker_handle_job] <;> split_ifs <;> rfl

/-- Claim C3, counterexample.  The claim says the daily upload counter is
created with a TTL reaching the period boundary (24 hours).  In the
code, `increment_usage_counter` maps only the exact counter types
"daily"/"monthly" to long TTLs, while `record_upload` increments
"daily_uploads" (and friends), which fall to the 1-hour default: after
`record_upload` at time 0 the daily_uploads counter expires at 3600,
not 86400. -/
theorem c3_usage_counter_ttl_cex :
    counter_expiration "daily_uploads" = 3600 ∧
    (record_upload 0 "k" 5 emptyCStore) ("k", "daily_uploads") = some ⟨1, 3600⟩ ∧
    (3600 : Nat) ≠ 86400 := by
  decide

/-- Claim C3, amended.  Every increment (not only the first of a period)
stores the counter with a fresh TTL of `counter_expiration kind` seconds
from `now`; the mapping gives 86400 s to the exact type "daily" and
2592000 s to "monthly", but every counter type `record_upload` actually
uses ("daily_uploads", "monthly_uploads", "daily_bytes",
"monthly_bytes") receives the 1-hour default, so upload counters expire
3600 seconds after their last increment rather than at the period
boundary. -/
theorem c3_usage_counter_ttl :
    (∀ (now : Nat) (k kind : String) (amount : Nat) (s : CStore),
        (increment_usage_counter now k kind amount s).2 (k, kind) =
          some ⟨live_value now (s (k, kind)) + amount, now + counter_expiration kind⟩) ∧
    counter_expiration "daily" = 86400 ∧ counter_expiration "monthly" = 2592000 ∧
    counter_expiration "daily_uploads" = 3600 ∧
    counter_expiration "monthly_uploads" = 3600 ∧
    counter_expiration "daily_bytes" = 3600 ∧
    counter_expiration "monthly_bytes" = 3600 := by
  refine ⟨?_, by decide, by decide, by decide, by decide, by decide, by decide⟩
  intro now k kind amount s
  simp [increment_usage_counter]

/-- Claim C4, counterexample.  The claim says refill credit is never
retroactively lost.  It is: every call (allowed or not) stores
`last_refill := now`, discarding the fractional refill accrued since the
previous refill.  With capacity 5, refill 1/minute, from bucket
(tokens 0, last_refill 0): a call at t = 30 is denied and rebases the
bucket, after which a call at t = 60 is still denied — while a single
call at t = 60 from the same starting bucket is allowed. -/
theorem c4_refill_credit_lost_cex :
    (rate_limit_script 5 1 60 1
        (some (rate_limit_script 5 1 30 1 (some ⟨0, 0⟩)).2)).1.allowed = false ∧
    (rate_limit_script 5 1 60 1 (some ⟨0, 0⟩)).1.allowed = true := by
  decide

/-- Claim C4, amended.  For a single call on a stored bucket
(tokens `t ≥ 0`, `last_refill = lr ≤ now`): the refilled count is
`n = min capacity (t + (now - lr) * refill_rate / 60)`; the call is
allowed iff `cost ≤ n`, in which case `n - cost` is stored, otherwise
`n` is stored un-debited; `last_refill` is rebased to `now` in both
cases (which is what loses fractional credit across calls); a missing
bucket behaves exactly like a full bucket stamped `now`; and the refill
added within one call is monotone in the elapsed time. -/
theorem c4_check_and_consume (capacity refill_rate cost now t lr : Nat)
    (hlr : lr ≤ now) :
    ((rate_limit_script capacity refill_rate now cost
        (some ⟨(t : Int), (lr : Int)⟩)).1.allowed = true ↔
      cost ≤ min capacity (t + (now - lr) * refill_rate / 60)) ∧
    (rate_limit_script capacity refill_rate now cost
        (some ⟨(t : Int), (lr : Int)⟩)).2.tokens =
      (if cost ≤ min capacity (t + (now - lr) * refill_rate / 60) then
        ((min capacity (t + (now - lr) * refill_rate / 60) - cost : Nat) : Int)
      else ((min capacity (t + (now - lr) * refill_rate / 60) : Nat) : Int)) ∧
    (rate_limit_script capacity refill_rate now cost
        (some ⟨(t : Int), (lr : Int)⟩)).2.last_refill = (now : Int) ∧
    rate_limit_script capacity refill_rate now cost none =
      rate_limit_script capacity refill_rate now cost
        (some ⟨(capacity : Int), (now : Int)⟩) ∧
    (∀ e1 e2 : Nat, e1 ≤ e2 → e1 * refill_rate / 60 ≤ e2 * refill_rate / 60) := by
  rw [script_spec capacity refill_rate cost now t lr hlr]
  refine ⟨?_, ?_, ?_, ?_, ?_⟩
  · split_ifs with h <;> simp [h]
  · split_ifs with h <;> simp
  · split_ifs with h <;> simp
  · rfl
  · intro e1 e2 h
    exact Nat.div_le_div_right (Nat.mul_le_mul_right _ h)

/-- Witness for C4's amended theorem at capacity 5, refill 1/minute,
cost 1, bucket (2 tokens, last refill 0), now 120: two tokens refill,
the call is allowed and 3 tokens are stored. -/
theorem c4_check_and_consume_witness :
    (0 : Nat) ≤ 120 ∧
    (((rate_limit_script 5 1 120 1 (some ⟨(2 : Int), (0 : Int)⟩)).1.allowed = true ↔
      1 ≤ min 5 (2 + (120 - 0) * 1 / 60)) ∧
    (rate_limit_script 5 1 120 1 (some ⟨(2 : Int), (0 : Int)⟩)).2.tokens =
      (if 1 ≤ min 5 (2 + (120 - 0) * 1 / 60) then
        ((min 5 (2 + (120 - 0) * 1 / 60) - 1 : Nat) : Int)
      else ((min 5 (2 + (120 - 0) * 1 / 60) : Nat) : Int)) ∧
    (rate_limit_script 5 1 120 1 (some ⟨(2 : Int), (0 : Int)⟩)).2.last_refill =
      ((120 : Nat) : Int) ∧
    rate_limit_script 5 1 120 1 none =
      rate_limit_script 5 1 120 1 (some ⟨(5 : Int), (120 : Int)⟩) ∧
    (∀ e1 e2 : Nat, e1 ≤ e2 → e1 * 1 / 60 ≤ e2 * 1 / 60)) :=
  ⟨by decide, c4_check_and_consume 5 1 1 120 2 0 (by decide)⟩

/-- Claim C5, counterexample.  The claim says every sequence of calls
keeps `0 ≤ tokens ≤ capacity`.  A call whose `now` is earlier than the
bucket's stored `last_refill` (the wall clock stepping backwards)
computes a negative refill and stores a negative token count: from an
absent bucket, five calls at t = 100 drain a capacity-5 bucket to 0,
and a sixth call at t = 40 stores `tokens = -1`. -/
theorem c5_negative_tokens_cex :
    (rate_limit_script 5 1 40 1 (some
      (rate_limit_script 5 1 100 1 (some
      (rate_limit_script 5 1 100 1 (some
      (rate_limit_script 5 1 100 1 (some
      (rate_limit_script 5 1 100 1 (some
      (rate_limit_script 5 1 100 1 none).2)).2)).2)).2)).2)).2 = ⟨-1, 40⟩ ∧
    ((-1 : Int) < 0) := by
  constructor
  · decide
  · decide

/-- Claim C5, amended.  For every sequence of checkAndConsume calls
against one bucket starting from an absent bucket, provided call
timestamps never run backwards past the stored `last_refill`
(`BucketReach`), the stored token count satisfies
`0 ≤ tokens ≤ capacity` after every call. -/
theorem c5_bucket_bounds (capacity refill_rate : Nat) (x : Bucket)
    (h : BucketReach capacity refill_rate (some x)) :
    0 ≤ x.tokens ∧ x.tokens ≤ capacity :=
  bucketReach_bounds h x rfl

/-- Witness for C5's amended theorem: one call at t = 100 on an absent
capacity-5 bucket yields a reachable stored bucket within bounds. -/
theorem c5_bucket_bounds_witness :
    0 ≤ ((rate_limit_script 5 1 100 1 none).2).tokens ∧
      ((rate_limit_script 5 1 100 1 none).2).tokens ≤ 5 :=
  c5_bucket_bounds 5 1 _ (BucketReach.step 100 1 BucketReach.init (fun x hx => by
    exact absurd hx (by simp)))

/-- Claim C6 (confirmed).  `check_upload_quota` allows exactly when all
five independent checks pass: single-item size, daily uploads, monthly
uploads, stored image count, and the aggregate storage ceiling
`max_image_size_bytes * max_images` (assuming the `u64` arithmetic does
not wrap). -/
theorem c6_check_quota_conditions (file_size : Nat) (limits : ApiKeyLimits)
    (d m ic su : Nat)
    (h1 : su + file_size < 2 ^ 64)
    (h2 : limits.max_image_size_bytes * limits.max_images < 2 ^ 64) :
    (check_upload_quota file_size limits (some d) (some m) (some ic) (some su)).allowed
        = true ↔
      (file_size ≤ limits.max_image_size_bytes ∧ d < limits.daily_limit ∧
        m < limits.monthly_limit ∧ ic < limits.max_images ∧
        su + file_size ≤ limits.max_image_size_bytes * limits.max_images) := by
  simp only [check_upload_quota, u64, Option.getD_some, Nat.mod_eq_of_lt h1,
    Nat.mod_eq_of_lt h2]
  split_ifs <;> simp_all

/-- Witness for C6 at the claim's own numbers: 900 MB stored, a 1 GB
ceiling (250 MB x 4 images), a 200 MB upload request: the check denies
with a single StorageExceeded violation whose current value is
used + requested = 1100 MB and whose limit value is the 1 GB ceiling. -/
theorem c6_check_quota_conditions_witness :
    900000000 + 200000000 < 2 ^ 64 ∧
    250000000 * 4 < 2 ^ 64 ∧
    (check_upload_quota 200000000 ⟨100, 1000, 4, 250000000, ⟨5, 100, 1000⟩⟩
        (some 0) (some 0) (some 3) (some 900000000)).allowed = false ∧
    (check_upload_quota 200000000 ⟨100, 1000, 4, 250000000, ⟨5, 100, 1000⟩⟩
        (some 0) (some 0) (some 3) (some 900000000)).violations =
      [⟨.storageExceeded, 1100000000, 1000000000⟩] := by
  refine ⟨by decide, by decide, ?_, by decide⟩
  have h := c6_check_quota_conditions 200000000
    ⟨100, 1000, 4, 250000000, ⟨5, 100, 1000⟩⟩ 0 0 3 900000000 (by decide) (by decide)
  cases hA : (check_upload_quota 200000000 ⟨100, 1000, 4, 250000000, ⟨5, 100, 1000⟩⟩
      (some 0) (some 0) (some 3) (some 900000000)).allowed with
  | false => rfl
  | true => exact absurd (h.mp hA) (by decide)

/-- Claim C7, counterexample.  The claim says quota checks that depend on
the authoritative persistent counts fail closed when the read fails.
They do not: `check_upload_quota` applies `.unwrap_or(0)` to the failed
image-count and storage reads and allows the upload. -/
theorem c7_quota_fail_open_cex :
    (check_upload_quota 500 ⟨100, 1000, 10, 1000000, ⟨5, 100, 1000⟩⟩
        (some 0) (some 0) none none).allowed = true := by
  decide

/-- Claim C7, amended.  When the counter store is unreachable,
`check_rate_limit` returns an error rather than a denial, and the
admission middleware lets the request proceed (fail-open, warning on
every window, store untouched); but the quota check substitutes 0 for
every failed read — the authoritative image-count and storage reads
included — and therefore also fails open, not closed. -/
theorem c7_store_failure_semantics :
    (∀ (b : Option Bucket) (capacity refill_rate now : Nat),
        check_rate_limit false b capacity refill_rate now = .error ()) ∧
    (∀ (now : Nat) (checks : List (String × Nat × Nat)) (s : BStore),
        rate_limit_loop false now checks s = (.proceeded none, s, [])) ∧
    (∀ (file_size : Nat) (limits : ApiKeyLimits) (dr mr icr sr : Option Nat),
        check_upload_quota file_size limits dr mr icr sr =
          check_upload_quota file_size limits (some (dr.getD 0)) (some (mr.getD 0))
            (some (icr.getD 0)) (some (sr.getD 0))) := by
  refine ⟨?_, ?_, ?_⟩
  · intro b capacity refill_rate now
    simp [check_rate_limit]
  · intro now checks s
    induction checks with
    | nil => rfl
    | cons c rest ih =>
      obtain ⟨lt, cap, rr⟩ := c
      simp [rate_limit_loop, check_rate_limit, ih]
  · intro file_size limits dr mr icr sr
    simp only [check_upload_quota, Option.getD_some]

/-- Claim C8 (confirmed).  `check_upload_quota` is read-only: it returns
the counter store unchanged, so every usage counter and bucket holds the
same value after the check as before it; mutation happens only through
`record_upload`, which touches exactly its four upload counters (shown
here: any key of a different counter type is unchanged, while the
daily_uploads counter is incremented with a fresh TTL). -/
theorem c8_check_quota_readonly (now : Nat) (api_key_id : String) (file_size : Nat)
    (limits : ApiKeyLimits) (icr sr : Option Nat) (s : CStore) (q : CKey)
    (h1 : q.2 ≠ "daily_uploads") (h2 : q.2 ≠ "monthly_uploads")
    (h3 : q.2 ≠ "daily_bytes") (h4 : q.2 ≠ "monthly_bytes") :
    (check_upload_quota_st now api_key_id file_size limits icr sr s).2 = s ∧
    record_upload now api_key_id file_size s q = s q ∧
    record_upload now api_key_id file_size s (api_key_id, "daily_uploads") =
      some ⟨live_value now (s (api_key_id, "daily_uploads")) + 1, now + 3600⟩ := by
  refine ⟨rfl, record_upload_other now api_key_id file_size s q h1 h2 h3 h4, ?_⟩
  simp only [record_upload]
  rw [increment_other _ _ _ _ _ _ (by simp), increment_other _ _ _ _ _ _ (by simp),
    increment_other _ _ _ _ _ _ (by simp)]
  simp [increment_usage_counter, counter_expiration]

/-- Witness for C8 at a concrete store and an unrelated key. -/
theorem c8_check_quota_readonly_witness :
    (("a", "daily") : CKey).2 ≠ "daily_uploads" ∧
    (("a", "daily") : CKey).2 ≠ "monthly_uploads" ∧
    (("a", "daily") : CKey).2 ≠ "daily_bytes" ∧
    (("a", "daily") : CKey).2 ≠ "monthly_bytes" ∧
    ((check_upload_quota_st 0 "k" 5 ⟨1, 1, 10, 1000, ⟨1, 1, 1⟩⟩ none none
        emptyCStore).2 = emptyCStore ∧
    record_upload 0 "k" 5 emptyCStore ("a", "daily") = emptyCStore ("a", "daily") ∧
    record_upload 0 "k" 5 emptyCStore ("k", "daily_uploads") =
      some ⟨live_value 0 (emptyCStore ("k", "daily_uploads")) + 1, 0 + 3600⟩) :=
  ⟨by decide, by decide, by decide, by decide,
    c8_check_quota_readonly 0 "k" 5 ⟨1, 1, 10, 1000, ⟨1, 1, 1⟩⟩ none none
      emptyCStore ("a", "daily") (by decide) (by decide) (by decide) (by decide)⟩

/-- Claim C9 (confirmed).  `shutdown` drops the job sender (closing the
channel) and awaits the workers, which drain the remaining buffered
jobs: for every job enqueued before shutdown, the drained result at its
queue position is exactly that job handled by the worker-loop body —
no queued or in-flight job is dropped, and nothing else appears. -/
theorem c9_shutdown_drains_queue (attempts : Nat → Bool) (pending : List JobRec)
    (i : Nat) :
    (shutdown_drain attempts pending)[i]? =
      (pending[i]?).map (fun j => (worker_handle_job (attempts i) j).job) := by
  have h := worker_loop_closed_get attempts 0 i pending
  simpa using h

/-- Claim C10 (confirmed).  In every counter-store state reachable through
the core's own operations, the counter types "daily" and "monthly" read
by `quota_middleware` are absent (no operation increments them —
`record_upload` writes "daily_uploads"/"monthly_uploads"/
"daily_bytes"/"monthly_bytes"), so the middleware's daily and monthly
checks observe 0 and, for any positive limits, never deny — regardless
of how many uploads have been recorded. -/
theorem c10_middleware_reads_unincremented_counters (s : CStore) (h : CoreReach s)
    (now : Nat) (api_key_id : String) (limits : ApiKeyLimits)
    (hd : 1 ≤ limits.daily_limit) (hm : 1 ≤ limits.monthly_limit) :
    get_usage_counter now api_key_id "daily" s = 0 ∧
    get_usage_counter now api_key_id "monthly" s = 0 ∧
    quota_mw_daily_monthly now api_key_id limits s = none := by
  obtain ⟨h1, h2⟩ := coreReach_daily_monthly h api_key_id
  have g1 : get_usage_counter now api_key_id "daily" s = 0 := by
    simp [get_usage_counter, h1, live_value]
  have g2 : get_usage_counter now api_key_id "monthly" s = 0 := by
    simp [get_usage_counter, h2, live_value]
  refine ⟨g1, g2, ?_⟩
  simp only [quota_mw_daily_monthly, g1, g2]
  rw [if_neg (by omega), if_neg (by omega)]

/-- Witness for C10: after recording an upload, the middleware's daily
and monthly checks still observe 0 and pass. -/
theorem c10_middleware_reads_unincremented_counters_witness :
    1 ≤ (1 : Nat) ∧
    get_usage_counter 0 "k" "daily" (record_upload 0 "k" 5 emptyCStore) = 0 ∧
    get_usage_counter 0 "k" "monthly" (record_upload 0 "k" 5 emptyCStore) = 0 ∧
    quota_mw_daily_monthly 0 "k" ⟨1, 1, 10, 1000, ⟨1, 1, 1⟩⟩
      (record_upload 0 "k" 5 emptyCStore) = none := by
  refine ⟨le_refl 1, ?_⟩
  exact c10_middleware_reads_unincremented_counters _
    (CoreReach.upload 0 "k" 5 CoreReach.init) 0 "k"
    ⟨1, 1, 10, 1000, ⟨1, 1, 1⟩⟩ (by decide) (by decide)

end ImageHost
